import Mathlib

/-!
# poctl: ServiceMonitor synthesizer, RBAC analyzer and client-set builder

A shallow embedding of `cmd/servicemonitor.go`, `internal/analyzers/prometheusagent.go`
and `internal/k8sutil/k8sutil.go`.

Modelling conventions

* A Go function returning `error` returns `Option GoError` (`none` is `nil`); a Go function
  returning `(T, error)` returns `Except GoError T`.
* Every function that talks to the outside world returns, next to its result, the list of
  outside calls it made, in the order it made them (`Call`).  "X is never called" is a
  statement about that list.
* The Kubernetes clients are records of response functions.  The cluster is read as a
  snapshot: the same request gets the same response during one run.
* Go maps (`map[string]string`) are association lists of key/value pairs; a pair is
  present in a map when it is a member of the list.
* Pointer fields of the apply configurations that the code fills with `ptr.To` are
  `Option`s; fields the code never sets are left out.
-/

namespace Poctl

/-! ## Errors -/

/-- A Go `error` value, identified by the text of its `Error()` method. -/
structure GoError where
  msg : String
deriving DecidableEq, Repr

/-- An error returned by a Kubernetes API client call: its text and whether
`errors.IsNotFound` holds of it. -/
structure APIError where
  msg : String
  notFound : Bool
deriving DecidableEq, Repr

/-- The function `errors.IsNotFound` of `k8s.io/apimachinery/pkg/api/errors`. -/
def IsNotFound (err : APIError) : Bool := err.notFound

/-! ## Kubernetes objects (the fields the program reads or writes) -/

/-- A Go `map[string]string`. -/
abbrev Labels := List (String × String)

/-- The type `corev1.ServicePort`. -/
structure ServicePort where
  Name : String
  Port : Int
deriving DecidableEq, Repr

/-- The type `corev1.ServiceSpec`. -/
structure ServiceSpec where
  Selector : Labels
  Ports : List ServicePort
deriving DecidableEq, Repr

/-- The type `corev1.Service`. -/
structure Service where
  Name : String
  Namespace : String
  Labels : Labels
  Spec : ServiceSpec
deriving DecidableEq, Repr

/-- The type `monitoringv1.EndpointApplyConfiguration`. -/
structure EndpointApplyConfiguration where
  Port : Option String
  HonorLabels : Option Bool
deriving DecidableEq, Repr

/-- The type `applyConfigMetav1.LabelSelectorApplyConfiguration`. -/
structure LabelSelectorApplyConfiguration where
  MatchLabels : Labels
deriving DecidableEq, Repr

/-- The type `monitoringv1.ServiceMonitorSpecApplyConfiguration`. -/
structure ServiceMonitorSpecApplyConfiguration where
  Selector : LabelSelectorApplyConfiguration
  Endpoints : List EndpointApplyConfiguration
deriving DecidableEq, Repr

/-- The type `monitoringv1.ServiceMonitorApplyConfiguration`: type meta, object meta
and spec. -/
structure ServiceMonitorApplyConfiguration where
  Kind : Option String
  APIVersion : Option String
  Name : Option String
  Namespace : Option String
  Labels : Labels
  Spec : ServiceMonitorSpecApplyConfiguration
deriving DecidableEq, Repr

/-- The type `metav1.ApplyOptions`. -/
structure ApplyOptions where
  FieldManager : String
deriving DecidableEq, Repr

/-- The type `rbacv1.Subject`. -/
structure Subject where
  Kind : String
  Name : String
  Namespace : String
deriving DecidableEq, Repr

/-- The type `rbacv1.RoleRef`. -/
structure RoleRef where
  Kind : String
  Name : String
deriving DecidableEq, Repr

/-- The type `rbacv1.ClusterRoleBinding`. -/
structure ClusterRoleBinding where
  Name : String
  Subjects : List Subject
  RoleRef : RoleRef
deriving DecidableEq, Repr

/-- The type `rbacv1.PolicyRule`. -/
structure PolicyRule where
  Verbs : List String
  APIGroups : List String
  Resources : List String
deriving DecidableEq, Repr

/-- The type `rbacv1.ClusterRole`. -/
structure ClusterRole where
  Name : String
  Rules : List PolicyRule
deriving DecidableEq, Repr

/-- The type `monitoringv1alpha1.PrometheusAgentSpec`. -/
structure PrometheusAgentSpec where
  ServiceAccountName : String
deriving DecidableEq, Repr

/-- The type `monitoringv1alpha1.PrometheusAgent`. -/
structure PrometheusAgent where
  Name : String
  Namespace : String
  Spec : PrometheusAgentSpec
deriving DecidableEq, Repr

/-- The type `rest.Config`. -/
structure RestConfig where
  Host : String
deriving DecidableEq, Repr

/-- The type `user.User`. -/
structure User where
  HomeDir : String
deriving DecidableEq, Repr

/-! ## Outside calls -/

/-- One call that leaves the program: to the operating system, to a client
constructor, to the API server, or to the logger. -/
inductive Call where
  | userCurrent
  | stat (path : String)
  | buildConfigFromFlags (masterUrl kubeconfigPath : String)
  | newKubeClient (cfg : RestConfig)
  | newMonitoringClient (cfg : RestConfig)
  | newDynamicClient (cfg : RestConfig)
  | newAPIExtensionsClient (cfg : RestConfig)
  | getService (ns name : String)
  | applyServiceMonitor (ns : String) (cfg : ServiceMonitorApplyConfiguration)
      (opts : ApplyOptions)
  | getPrometheusAgent (ns name : String)
  | listClusterRoleBindings (labelSelector : String)
  | getClusterRole (name : String)
  | newLogger
  | logError (msg : String) (attrs : List (String × String))
  | logInfo (msg : String) (attrs : List (String × String))
  | println (text : String)
deriving DecidableEq, Repr

/-- The calls of a run that read a Service or apply a ServiceMonitor. -/
def Call.touchesServiceMonitor : Call → Bool
  | .getService _ _ => true
  | .applyServiceMonitor _ _ _ => true
  | _ => false

/-- The calls of a run that apply a ServiceMonitor. -/
def Call.isApply : Call → Bool
  | .applyServiceMonitor _ _ _ => true
  | _ => false

/-- The calls of a run that list ClusterRoleBindings or fetch a ClusterRole. -/
def Call.readsRBAC : Call → Bool
  | .listClusterRoleBindings _ => true
  | .getClusterRole _ => true
  | _ => false

/-- The calls of a run that consult the home-directory default of the kubeconfig. -/
def Call.consultsHome : Call → Bool
  | .userCurrent => true
  | .stat _ => true
  | _ => false

/-- The calls of a run that build a client config. -/
def Call.buildsConfig : Call → Bool
  | .buildConfigFromFlags _ _ => true
  | _ => false

/-! ## Clients and host -/

/-- The part of `kubernetes.Interface` the program uses: `CoreV1().Services(ns).Get`,
`RbacV1().ClusterRoleBindings().List` and `RbacV1().ClusterRoles().Get`. -/
structure KubeClient where
  getService : String → String → Except APIError Service
  listClusterRoleBindings : String → Except APIError (List ClusterRoleBinding)
  getClusterRole : String → Except APIError ClusterRole

/-- The part of `monitoringclient.Interface` the program uses:
`MonitoringV1alpha1().PrometheusAgents(ns).Get` and
`MonitoringV1().ServiceMonitors(ns).Apply`. -/
structure MonitoringClient where
  getPrometheusAgent : String → String → Except APIError PrometheusAgent
  applyServiceMonitor :
    String → ServiceMonitorApplyConfiguration → ApplyOptions → Except APIError Unit

/-- The type `dynamic.Interface` (no method of it is used). -/
structure DynamicClient where
  cfg : RestConfig

/-- The type `apiExtensions.Interface` (no method of it is used). -/
structure APIExtensionsClient where
  cfg : RestConfig

/-- The type `k8sutil.ClientSets`. -/
structure ClientSets where
  KClient : KubeClient
  MClient : MonitoringClient
  DClient : DynamicClient
  APIExtensionsClient : APIExtensionsClient

/-- What the program's surroundings answer: the operating system (`user.Current`,
`os.Stat`), the library functions `filepath.Clean` and `clientcmd.BuildConfigFromFlags`,
the four `NewForConfig` client constructors, and `log.NewLogger`. -/
structure Host where
  userCurrent : Except GoError User
  stat : String → Except GoError Unit
  filepathClean : String → String
  buildConfigFromFlags : String → String → Except GoError RestConfig
  newKubeClient : RestConfig → Except GoError KubeClient
  newMonitoringClient : RestConfig → Except GoError MonitoringClient
  newDynamicClient : RestConfig → Except GoError DynamicClient
  newAPIExtensionsClient : RestConfig → Except GoError APIExtensionsClient
  newLogger : Except GoError Unit

/-! ## `internal/k8sutil/k8sutil.go` -/

/-- The variable `ApplyOption`. -/
def ApplyOption : ApplyOptions := { FieldManager := "application/apply-patch" }

/-- The function `getKubeConfig`. -/
def getKubeConfig (h : Host) : Except GoError String × List Call :=
  match h.userCurrent with
  | .error err => (.error err, [.userCurrent])
  | .ok usr =>
    let kubeConfig := h.filepathClean (usr.HomeDir ++ "/.kube/config")
    match h.stat kubeConfig with
    | .error err => (.error err, [.userCurrent, .stat kubeConfig])
    | .ok _ => (.ok kubeConfig, [.userCurrent, .stat kubeConfig])

/-- The tail of `GetRestConfig`, from `clientcmd.BuildConfigFromFlags` on. -/
def buildRestConfig (h : Host) (kubeConfig : String) : Except GoError RestConfig × List Call :=
  match h.buildConfigFromFlags "" kubeConfig with
  | .error err =>
    (.error ⟨"error while creating k8s client config: " ++ err.msg⟩,
      [.buildConfigFromFlags "" kubeConfig])
  | .ok config => (.ok config, [.buildConfigFromFlags "" kubeConfig])

/-- The function `GetRestConfig`. -/
def GetRestConfig (h : Host) (kubeConfig : String) : Except GoError RestConfig × List Call :=
  if kubeConfig = "" then
    match getKubeConfig h with
    | (.error err, calls) => (.error ⟨"error while getting kubeconfig: " ++ err.msg⟩, calls)
    | (.ok path, calls) =>
      let r := buildRestConfig h path
      (r.1, calls ++ r.2)
  else
    buildRestConfig h kubeConfig

/-- The function `GetClientSets`. -/
def GetClientSets (h : Host) (kubeconfig : String) : Except GoError ClientSets × List Call :=
  match GetRestConfig h kubeconfig with
  | (.error err, calls) =>
    (.error ⟨"error while getting k8s client config: " ++ err.msg⟩, calls)
  | (.ok restConfig, calls) =>
    match h.newKubeClient restConfig with
    | .error err =>
      (.error ⟨"error while creating k8s client: " ++ err.msg⟩,
        calls ++ [.newKubeClient restConfig])
    | .ok kclient =>
      match h.newMonitoringClient restConfig with
      | .error err =>
        (.error ⟨"error while creating Prometheus Operator client: " ++ err.msg⟩,
          calls ++ [.newKubeClient restConfig, .newMonitoringClient restConfig])
      | .ok mclient =>
        match h.newDynamicClient restConfig with
        | .error err =>
          (.error ⟨"error while creating dynamic client: " ++ err.msg⟩,
            calls ++ [.newKubeClient restConfig, .newMonitoringClient restConfig,
              .newDynamicClient restConfig])
        | .ok kdynamicClient =>
          match h.newAPIExtensionsClient restConfig with
          | .error err =>
            (.error ⟨"error while creating apiextensions client: " ++ err.msg⟩,
              calls ++ [.newKubeClient restConfig, .newMonitoringClient restConfig,
                .newDynamicClient restConfig, .newAPIExtensionsClient restConfig])
          | .ok apiExtensions =>
            (.ok { KClient := kclient, MClient := mclient, DClient := kdynamicClient,
                   APIExtensionsClient := apiExtensions },
              calls ++ [.newKubeClient restConfig, .newMonitoringClient restConfig,
                .newDynamicClient restConfig, .newAPIExtensionsClient restConfig])

/-! ## `cmd/servicemonitor.go` -/

/-- The loop of `createFromService` over `service.Spec.Ports`: a port is skipped when
`port != "" && p.Name != port`, and otherwise an endpoint is appended. -/
def appendEndpoints (port : String) :
    List EndpointApplyConfiguration → List ServicePort → List EndpointApplyConfiguration
  | endpoints, [] => endpoints
  | endpoints, p :: rest =>
    if port ≠ "" ∧ p.Name ≠ port then
      appendEndpoints port endpoints rest
    else
      appendEndpoints port (endpoints ++ [{ HonorLabels := some true, Port := some p.Name }]) rest

/-- The ServiceMonitor apply configuration `createFromService` builds from the Service
it read: the struct literal, then the loop over the ports. -/
def serviceMonitorFor (service : Service) (ns serviceName port : String) :
    ServiceMonitorApplyConfiguration :=
  let svcMonitor : ServiceMonitorApplyConfiguration :=
    { Kind := some "ServiceMonitor"
      APIVersion := some "monitoring.coreos.com/v1"
      Name := some serviceName
      Namespace := some ns
      Labels := service.Labels
      Spec := { Selector := { MatchLabels := service.Spec.Selector }, Endpoints := [] } }
  { svcMonitor with
    Spec := { svcMonitor.Spec with
      Endpoints := appendEndpoints port svcMonitor.Spec.Endpoints service.Spec.Ports } }

/-- The function `createFromService`. -/
def createFromService (clientSets : ClientSets) (ns serviceName port : String) :
    Option GoError × List Call :=
  match clientSets.KClient.getService ns serviceName with
  | .error err =>
    (some ⟨"error while getting service " ++ serviceName ++ ": " ++ err.msg⟩,
      [.getService ns serviceName])
  | .ok service =>
    let svcMonitor := serviceMonitorFor service ns serviceName port
    match clientSets.MClient.applyServiceMonitor ns svcMonitor ApplyOption with
    | .error err =>
      (some ⟨"error while creating service monitor " ++ serviceName ++ ": " ++ err.msg⟩,
        [.getService ns serviceName, .applyServiceMonitor ns svcMonitor ApplyOption])
    | .ok _ =>
      (none, [.getService ns serviceName, .applyServiceMonitor ns svcMonitor ApplyOption])

/-- The function `runServiceMonitor`; `kubeconfig`, `serviceName`, `ns` and `port` are
the values of the command's flags. -/
def runServiceMonitor (h : Host) (kubeconfig serviceName ns port : String) :
    Option GoError × List Call :=
  match h.newLogger with
  | .error err => (some err, [.newLogger, .println err.msg])
  | .ok _ =>
    match GetClientSets h kubeconfig with
    | (.error err, calls) =>
      (some err,
        .newLogger :: calls ++ [.logError "error while getting client sets" [("err", err.msg)]])
    | (.ok clientSets, calls) =>
      if serviceName = "" then
        (some ⟨"service name is required"⟩,
          .newLogger :: calls ++ [.logError "service name is required" []])
      else
        match createFromService clientSets ns serviceName port with
        | (some err, calls') =>
          (some err,
            .newLogger :: calls ++ calls' ++
              [.logError "error while creating service monitor" [("err", err.msg)]])
        | (none, calls') => (none, .newLogger :: calls ++ calls')

/-! ## `internal/analyzers/prometheusagent.go` -/

/-- The body of the loop of `RunPrometheusAgentAnalyzer` for one binding: fetch the
ClusterRole named by `crb.RoleRef.Name`, then run the rule check on it; the result is
the error the body returns with, `none` when the loop goes on.  The function
`k8sutil.CheckPrometheusClusterRoleRules`, whose source is not at hand, is the
parameter `check`. -/
def checkBinding (check : ClusterRoleBinding → ClusterRole → Option GoError)
    (k : KubeClient) (crb : ClusterRoleBinding) : Option GoError :=
  match k.getClusterRole crb.RoleRef.Name with
  | .error _ => some ⟨"failed to get ClusterRole " ++ crb.RoleRef.Name⟩
  | .ok cr => check crb cr

/-- The loop of `RunPrometheusAgentAnalyzer` over `cRb.Items`: it returns at the first
binding whose body returns an error. -/
def checkBindings (check : ClusterRoleBinding → ClusterRole → Option GoError)
    (k : KubeClient) : List ClusterRoleBinding → Option GoError × List Call
  | [] => (none, [])
  | crb :: rest =>
    match checkBinding check k crb with
    | some err => (some err, [.getClusterRole crb.RoleRef.Name])
    | none =>
      let r := checkBindings check k rest
      (r.1, .getClusterRole crb.RoleRef.Name :: r.2)

/-- The function `RunPrometheusAgentAnalyzer`.  The functions
`k8sutil.IsServiceAccountBoundToRoleBindingList` and
`k8sutil.CheckPrometheusClusterRoleRules`, whose source is not at hand, are the
parameters `isBound` and `check`. -/
def RunPrometheusAgentAnalyzer
    (isBound : List ClusterRoleBinding → String → Bool)
    (check : ClusterRoleBinding → ClusterRole → Option GoError)
    (clientSets : ClientSets) (name ns : String) : Option GoError × List Call :=
  match clientSets.MClient.getPrometheusAgent ns name with
  | .error err =>
    if IsNotFound err then
      (some ⟨"prometheus " ++ name ++ " not found in namespace " ++ ns⟩,
        [.getPrometheusAgent ns name])
    else
      (some ⟨"error while getting Prometheus: " ++ err.msg⟩, [.getPrometheusAgent ns name])
  | .ok prometheusagent =>
    match clientSets.KClient.listClusterRoleBindings "name=prometheus-agent" with
    | .error err =>
      (some ⟨"failed to list RoleBindings: " ++ err.msg⟩,
        [.getPrometheusAgent ns name, .listClusterRoleBindings "name=prometheus-agent"])
    | .ok cRb =>
      if ¬ isBound cRb prometheusagent.Spec.ServiceAccountName then
        (some ⟨"serviceAccount " ++ prometheusagent.Spec.ServiceAccountName ++
            " is not bound to any RoleBindings"⟩,
          [.getPrometheusAgent ns name, .listClusterRoleBindings "name=prometheus-agent"])
      else
        match checkBindings check clientSets.KClient cRb with
        | (some err, calls) =>
          (some err,
            [.getPrometheusAgent ns name, .listClusterRoleBindings "name=prometheus-agent"]
              ++ calls)
        | (none, calls) =>
          (none,
            [.getPrometheusAgent ns name, .listClusterRoleBindings "name=prometheus-agent"]
              ++ calls ++
              [.logInfo "Prometheus Agent is compliant, no issues found"
                [("name", name), ("namespace", ns)]])

/-- Modelled from the spec: the source of `k8sutil.IsServiceAccountBoundToRoleBindingList`
is missing; this is its test on one binding, which binds a service account when it names
it as a subject, that is, has a subject of kind `ServiceAccount` with that name. -/
def bindsServiceAccount (crb : ClusterRoleBinding) (serviceAccountName : String) : Bool :=
  crb.Subjects.any (fun subject =>
    subject.Kind == "ServiceAccount" && subject.Name == serviceAccountName)

/-- Modelled from the spec: the source of `k8sutil.IsServiceAccountBoundToRoleBindingList`
is missing; a service account is bound to a list of bindings when some binding of the
list names it as a subject. -/
def IsServiceAccountBoundToRoleBindingList (clusterRoleBindings : List ClusterRoleBinding)
    (serviceAccountName : String) : Bool :=
  clusterRoleBindings.any (fun crb => bindsServiceAccount crb serviceAccountName)

/-! ## Concrete inputs -/

/-- A rule check for the concrete runs below, in the place of
`k8sutil.CheckPrometheusClusterRoleRules`: it accepts a ClusterRole that has rules. -/
def requireRules : ClusterRoleBinding → ClusterRole → Option GoError :=
  fun crb cr =>
    if cr.Rules = [] then
      some ⟨"ClusterRole " ++ cr.Name ++ " bound by " ++ crb.Name ++ " has no rules"⟩
    else none

/-- The agent `agent` of namespace `monitoring`, run as service account `prometheus-agent`. -/
def demoAgent : PrometheusAgent :=
  { Name := "agent", Namespace := "monitoring",
    Spec := { ServiceAccountName := "prometheus-agent" } }

/-- A binding of the agent's service account to the ClusterRole `prometheus-agent`. -/
def agentBinding : ClusterRoleBinding :=
  { Name := "prometheus-agent",
    Subjects := [{ Kind := "ServiceAccount", Name := "prometheus-agent",
                   Namespace := "monitoring" }],
    RoleRef := { Kind := "ClusterRole", Name := "prometheus-agent" } }

/-- A binding without subjects to a ClusterRole that does not exist. -/
def strayBinding : ClusterRoleBinding :=
  { Name := "stray", Subjects := [], RoleRef := { Kind := "ClusterRole", Name := "missing" } }

/-- The ClusterRole `prometheus-agent`. -/
def agentRole : ClusterRole :=
  { Name := "prometheus-agent",
    Rules := [{ Verbs := ["get", "list", "watch"], APIGroups := [""],
                Resources := ["nodes", "services", "endpoints", "pods"] }] }

/-- A cluster whose ClusterRoleBindings labelled `name=prometheus-agent` are
`agentBinding` and `strayBinding`, in that order, and whose only ClusterRole is
`agentRole`. -/
def rbacKubeClient : KubeClient :=
  { getService := fun _ name =>
      .error { msg := "services \"" ++ name ++ "\" not found", notFound := true }
    listClusterRoleBindings := fun labelSelector =>
      if labelSelector = "name=prometheus-agent" then .ok [agentBinding, strayBinding]
      else .ok []
    getClusterRole := fun name =>
      if name = "prometheus-agent" then .ok agentRole
      else .error { msg := "clusterroles \"" ++ name ++ "\" not found", notFound := true } }

/-- The cluster `rbacKubeClient` without `strayBinding`. -/
def compliantKubeClient : KubeClient :=
  { rbacKubeClient with
    listClusterRoleBindings := fun labelSelector =>
      if labelSelector = "name=prometheus-agent" then .ok [agentBinding] else .ok [] }

/-- A monitoring API that holds `demoAgent` and accepts every apply. -/
def agentMonitoringClient : MonitoringClient :=
  { getPrometheusAgent := fun ns name =>
      if ns = "monitoring" ∧ name = "agent" then .ok demoAgent
      else .error { msg := "prometheusagents \"" ++ name ++ "\" not found", notFound := true }
    applyServiceMonitor := fun _ _ _ => .ok () }

/-- Client sets over `rbacKubeClient` and `agentMonitoringClient`. -/
def rbacClientSets : ClientSets :=
  { KClient := rbacKubeClient, MClient := agentMonitoringClient,
    DClient := ⟨⟨"https://cluster"⟩⟩, APIExtensionsClient := ⟨⟨"https://cluster"⟩⟩ }


/-- A Service with two named ports whose labels and pod selector coincide. -/
def webService : Service :=
  { Name := "web", Namespace := "default", Labels := [("app", "web")],
    Spec := { Selector := [("app", "web")],
              Ports := [{ Name := "http", Port := 80 }, { Name := "metrics", Port := 9090 }] } }

/-- A Service without labels whose pod selector is `app=web`. -/
def bareService : Service :=
  { Name := "web", Namespace := "default", Labels := [],
    Spec := { Selector := [("app", "web")], Ports := [{ Name := "http", Port := 80 }] } }

/-- A cluster that holds `webService` only, no agent, no RBAC objects. -/
def webKubeClient : KubeClient :=
  { getService := fun ns name =>
      if ns = "default" ∧ name = "web" then .ok webService
      else .error { msg := "services \"" ++ name ++ "\" not found", notFound := true }
    listClusterRoleBindings := fun _ => .ok []
    getClusterRole := fun name =>
      .error { msg := "clusterroles \"" ++ name ++ "\" not found", notFound := true } }

/-- A monitoring API that accepts every apply and holds no agent. -/
def acceptingMonitoringClient : MonitoringClient :=
  { getPrometheusAgent := fun _ name =>
      .error { msg := "prometheusagents \"" ++ name ++ "\" not found", notFound := true }
    applyServiceMonitor := fun _ _ _ => .ok () }

/-- Client sets over `webKubeClient` and `acceptingMonitoringClient`. -/
def webClientSets : ClientSets :=
  { KClient := webKubeClient, MClient := acceptingMonitoringClient,
    DClient := ⟨⟨"https://cluster"⟩⟩, APIExtensionsClient := ⟨⟨"https://cluster"⟩⟩ }

/-- A host whose current user has the home directory `/home/dev` with a kubeconfig in
it; `filepath.Clean` is the identity, which it is on the clean paths used here. -/
def devHost : Host :=
  { userCurrent := .ok { HomeDir := "/home/dev" }
    stat := fun path =>
      if path = "/home/dev/.kube/config" then .ok ()
      else .error ⟨"stat " ++ path ++ ": no such file or directory"⟩
    filepathClean := id
    buildConfigFromFlags := fun _ _ => .ok { Host := "https://cluster" }
    newKubeClient := fun _ => .ok webKubeClient
    newMonitoringClient := fun _ => .ok acceptingMonitoringClient
    newDynamicClient := fun cfg => .ok ⟨cfg⟩
    newAPIExtensionsClient := fun cfg => .ok ⟨cfg⟩
    newLogger := .ok () }

/-- The host `devHost` when the current user cannot be determined. -/
def noUserHost : Host :=
  { devHost with userCurrent := .error ⟨"user: Current requires cgo or $USER set"⟩ }

/-- A cluster that holds `bareService` only. -/
def bareKubeClient : KubeClient :=
  { webKubeClient with
    getService := fun ns name =>
      if ns = "default" ∧ name = "web" then .ok bareService
      else .error { msg := "services \"" ++ name ++ "\" not found", notFound := true } }

/-- Client sets over `bareKubeClient` and `acceptingMonitoringClient`. -/
def bareClientSets : ClientSets :=
  { webClientSets with KClient := bareKubeClient }

/-- The agent `agent` of namespace `monitoring`, run as service account `other`, which
no ClusterRoleBinding names. -/
def otherAgent : PrometheusAgent :=
  { Name := "agent", Namespace := "monitoring", Spec := { ServiceAccountName := "other" } }

/-- A monitoring API that holds `otherAgent` and accepts every apply. -/
def otherMonitoringClient : MonitoringClient :=
  { getPrometheusAgent := fun ns name =>
      if ns = "monitoring" ∧ name = "agent" then .ok otherAgent
      else .error { msg := "prometheusagents \"" ++ name ++ "\" not found", notFound := true }
    applyServiceMonitor := fun _ _ _ => .ok () }

/-- Client sets over `rbacKubeClient` and `otherMonitoringClient`. -/
def otherClientSets : ClientSets :=
  { rbacClientSets with MClient := otherMonitoringClient }

/-- Client sets over `compliantKubeClient` and `agentMonitoringClient`. -/
def compliantClientSets : ClientSets :=
  { rbacClientSets with KClient := compliantKubeClient }

/-! ## The ServiceMonitor synthesizer -/

/-- The endpoint the loop appends for a port. -/
theorem appendEndpoints_eq (port : String) (ports : List ServicePort)
    (acc : List EndpointApplyConfiguration) :
    appendEndpoints port acc ports =
      acc ++ (ports.filter (fun p => decide (port = "" ∨ p.Name = port))).map
        (fun p => { Port := some p.Name, HonorLabels := some true }) := by
  induction ports generalizing acc with
  | nil => simp [appendEndpoints]
  | cons p rest ih =>
    by_cases hp : port = "" ∨ p.Name = port
    · have hskip : ¬ (port ≠ "" ∧ p.Name ≠ port) := by
        rcases hp with h | h
        · exact fun hc => hc.1 h
        · exact fun hc => hc.2 h
      simp [appendEndpoints, hskip, hp, ih]
    · have hskip : port ≠ "" ∧ p.Name ≠ port := by
        constructor
        · exact fun h => hp (Or.inl h)
        · exact fun h => hp (Or.inr h)
      simp [appendEndpoints, hskip, hp, ih]

/-- The calls of `createFromService` always start with the read of the Service. -/
theorem createFromService_calls_head (cs : ClientSets) (ns serviceName port : String) :
    (createFromService cs ns serviceName port).2.head? = some (.getService ns serviceName) := by
  unfold createFromService
  split
  · rfl
  · dsimp only
    split <;> rfl

/-- C1: when the read of the Service succeeds, `createFromService` makes exactly two
calls, the read and one Apply, and the ServiceMonitor it submits has kind
"ServiceMonitor", apiVersion "monitoring.coreos.com/v1", the name `serviceName`, the
namespace argument, the Service's labels, and the Service's `spec.selector` as
selector matchLabels; it is the configuration `serviceMonitorFor` builds. -/
theorem C1_createFromService_submits (cs : ClientSets) (ns serviceName port : String)
    (service : Service) (hget : cs.KClient.getService ns serviceName = .ok service) :
    ∃ sm : ServiceMonitorApplyConfiguration,
      (createFromService cs ns serviceName port).2 =
        [.getService ns serviceName, .applyServiceMonitor ns sm ApplyOption] ∧
      sm.Kind = some "ServiceMonitor" ∧
      sm.APIVersion = some "monitoring.coreos.com/v1" ∧
      sm.Name = some serviceName ∧
      sm.Namespace = some ns ∧
      sm.Labels = service.Labels ∧
      sm.Spec.Selector.MatchLabels = service.Spec.Selector ∧
      sm = serviceMonitorFor service ns serviceName port := by
  refine ⟨serviceMonitorFor service ns serviceName port, ?_, rfl, rfl, rfl, rfl, rfl, rfl, rfl⟩
  unfold createFromService
  rw [hget]
  dsimp only
  split <;> rfl

/-- C1 at `webService`, read from namespace `default` with port filter `metrics`. -/
theorem C1_createFromService_submits_witness :
    webClientSets.KClient.getService "default" "web" = .ok webService ∧
    ∃ sm : ServiceMonitorApplyConfiguration,
      (createFromService webClientSets "default" "web" "metrics").2 =
        [.getService "default" "web", .applyServiceMonitor "default" sm ApplyOption] ∧
      sm.Kind = some "ServiceMonitor" ∧
      sm.APIVersion = some "monitoring.coreos.com/v1" ∧
      sm.Name = some "web" ∧
      sm.Namespace = some "default" ∧
      sm.Labels = webService.Labels ∧
      sm.Spec.Selector.MatchLabels = webService.Spec.Selector ∧
      sm = serviceMonitorFor webService "default" "web" "metrics" :=
  ⟨rfl, C1_createFromService_submits webClientSets "default" "web" "metrics" webService rfl⟩

/-- The endpoints of the monitor built, as a filter of the Service's ports. -/
theorem serviceMonitorFor_endpoints (service : Service) (ns serviceName port : String) :
    (serviceMonitorFor service ns serviceName port).Spec.Endpoints =
      (service.Spec.Ports.filter (fun p => decide (port = "" ∨ p.Name = port))).map
        (fun p => { Port := some p.Name, HonorLabels := some true }) := by
  simp [serviceMonitorFor, appendEndpoints_eq]

/-- C2: the endpoints of the ServiceMonitor built by `createFromService` are, in the
order of the Service's ports, one endpoint per port `p` with the port argument empty
or `p.Name` equal to it, each with `Port = p.Name` and `HonorLabels = true`, and
nothing else; with an empty port argument that is one endpoint for every port. -/
theorem C2_endpoints (service : Service) (ns serviceName port : String) :
    (serviceMonitorFor service ns serviceName port).Spec.Endpoints =
        (service.Spec.Ports.filter (fun p => decide (port = "" ∨ p.Name = port))).map
          (fun p => { Port := some p.Name, HonorLabels := some true }) ∧
    (serviceMonitorFor service ns serviceName "").Spec.Endpoints =
        service.Spec.Ports.map (fun p => { Port := some p.Name, HonorLabels := some true }) := by
  constructor
  · simp [serviceMonitorFor, appendEndpoints_eq]
  · simp [serviceMonitorFor, appendEndpoints_eq]

/-- C3 at a failing input: `createFromService` on a cluster holding `bareService` (no
labels, pod selector `app=web`) reads the Service, applies a monitor and returns nil,
and that monitor's selector has the matchLabels pair `app=web`, which is not among
the Service's labels, so the monitor's label selector does not select the Service it
was derived from. -/
theorem C3_monitor_misses_source_service :
    bareClientSets.KClient.getService "default" "web" = .ok bareService ∧
    createFromService bareClientSets "default" "web" "" =
      (none, [.getService "default" "web",
        .applyServiceMonitor "default" (serviceMonitorFor bareService "default" "web" "")
          ApplyOption]) ∧
    (serviceMonitorFor bareService "default" "web" "").Spec.Selector.MatchLabels =
      [("app", "web")] ∧
    bareService.Labels = [] ∧
    ¬ (∀ kv ∈ (serviceMonitorFor bareService "default" "web" "").Spec.Selector.MatchLabels,
        kv ∈ bareService.Labels) := by
  refine ⟨rfl, rfl, rfl, rfl, ?_⟩
  simp [serviceMonitorFor, bareService]

/-- C9: if the read of the Service fails, `createFromService` returns an error and its
only call is that read, so no Apply is made; it returns nil exactly when the read
succeeds and the Apply of the monitor built from the Service succeeds; and when a
non-empty port argument names no port of the Service, the monitor applied has no
endpoints and the function still returns nil once that Apply succeeds. -/
theorem C9_createFromService_result (cs : ClientSets) (ns serviceName port : String) :
    (∀ err, cs.KClient.getService ns serviceName = .error err →
      (createFromService cs ns serviceName port).1 ≠ none ∧
      (createFromService cs ns serviceName port).2 = [.getService ns serviceName] ∧
      ∀ c ∈ (createFromService cs ns serviceName port).2, c.isApply = false) ∧
    ((createFromService cs ns serviceName port).1 = none ↔
      ∃ service, cs.KClient.getService ns serviceName = .ok service ∧
        cs.MClient.applyServiceMonitor ns (serviceMonitorFor service ns serviceName port)
          ApplyOption = .ok ()) ∧
    (∀ service, cs.KClient.getService ns serviceName = .ok service →
      port ≠ "" → (∀ p ∈ service.Spec.Ports, p.Name ≠ port) →
      (serviceMonitorFor service ns serviceName port).Spec.Endpoints = [] ∧
      (cs.MClient.applyServiceMonitor ns (serviceMonitorFor service ns serviceName port)
          ApplyOption = .ok () →
        createFromService cs ns serviceName port =
          (none, [.getService ns serviceName,
            .applyServiceMonitor ns (serviceMonitorFor service ns serviceName port)
              ApplyOption]))) := by
  refine ⟨?_, ?_, ?_⟩
  · intro err hget
    simp [createFromService, hget, Call.isApply]
  · constructor
    · intro hnil
      cases hget : cs.KClient.getService ns serviceName with
      | error err => simp [createFromService, hget] at hnil
      | ok service =>
        refine ⟨service, rfl, ?_⟩
        cases happly : cs.MClient.applyServiceMonitor ns
            (serviceMonitorFor service ns serviceName port) ApplyOption with
        | error err => simp [createFromService, hget, happly] at hnil
        | ok u => rfl
    · rintro ⟨service, hget, happly⟩
      simp [createFromService, hget, happly]
  · intro service hget hport hnone
    constructor
    · have hfilter : service.Spec.Ports.filter
          (fun p => decide (port = "" ∨ p.Name = port)) = [] := by
        rw [List.filter_eq_nil_iff]
        intro p hp
        simp [hport, hnone p hp]
      rw [(serviceMonitorFor_endpoints service ns serviceName port), hfilter]
      rfl
    · intro happly
      simp [createFromService, hget, happly]

/-- C9 at `webService` with the port argument `grpc`, which names none of its ports. -/
theorem C9_createFromService_result_witness :
    webClientSets.KClient.getService "default" "web" = .ok webService ∧
    (serviceMonitorFor webService "default" "web" "grpc").Spec.Endpoints = [] ∧
    createFromService webClientSets "default" "web" "grpc" =
      (none, [.getService "default" "web",
        .applyServiceMonitor "default" (serviceMonitorFor webService "default" "web" "grpc")
          ApplyOption]) :=
  have h := (C9_createFromService_result webClientSets "default" "web" "grpc").2.2
    webService rfl (by decide) (by decide)
  ⟨rfl, h.1, h.2 rfl⟩

/-! ## The client-set builder -/

/-- The calls of `buildRestConfig`: one `clientcmd.BuildConfigFromFlags`. -/
theorem buildRestConfig_calls (h : Host) (kubeConfig : String) :
    (buildRestConfig h kubeConfig).2 = [.buildConfigFromFlags "" kubeConfig] := by
  unfold buildRestConfig
  split <;> rfl

/-- No call of `getKubeConfig` reads a Service or applies a ServiceMonitor. -/
theorem getKubeConfig_calls (h : Host) :
    ∀ c ∈ (getKubeConfig h).2, c.touchesServiceMonitor = false := by
  unfold getKubeConfig
  cases h.userCurrent with
  | error err => simp [Call.touchesServiceMonitor]
  | ok usr =>
    dsimp only
    cases h.stat (h.filepathClean (usr.HomeDir ++ "/.kube/config")) <;>
      simp [Call.touchesServiceMonitor]

/-- No call of `GetRestConfig` reads a Service or applies a ServiceMonitor. -/
theorem GetRestConfig_calls (h : Host) (kubeConfig : String) :
    ∀ c ∈ (GetRestConfig h kubeConfig).2, c.touchesServiceMonitor = false := by
  have hk := getKubeConfig_calls h
  unfold GetRestConfig
  by_cases hempty : kubeConfig = ""
  · rw [if_pos hempty]
    cases hres : getKubeConfig h with
    | mk res calls =>
      rw [hres] at hk
      cases res with
      | error err => exact hk
      | ok path =>
        intro c hc
        simp only [buildRestConfig_calls, List.mem_append, List.mem_singleton] at hc
        rcases hc with hc | hc
        · exact hk c hc
        · subst hc; rfl
  · rw [if_neg hempty, buildRestConfig_calls]
    simp [Call.touchesServiceMonitor]

/-- No call of `GetClientSets` reads a Service or applies a ServiceMonitor. -/
theorem GetClientSets_calls (h : Host) (kubeconfig : String) :
    ∀ c ∈ (GetClientSets h kubeconfig).2, c.touchesServiceMonitor = false := by
  intro c hc
  have hrest := GetRestConfig_calls h kubeconfig
  unfold GetClientSets at hc
  split at hc
  · rename_i err calls heq
    rw [heq] at hrest
    exact hrest c hc
  · rename_i restConfig calls heq
    rw [heq] at hrest
    have key : ∀ l : List Call, (∀ d ∈ l, d.touchesServiceMonitor = false) →
        c ∈ calls ++ l → c.touchesServiceMonitor = false := by
      intro l hl hmem
      rcases List.mem_append.mp hmem with h1 | h1
      · exact hrest c h1
      · exact hl c h1
    repeat' split at hc
    all_goals
      refine key _ ?_ hc
      intro d hd
      simp at hd
      first
      | (subst hd; rfl)
      | (rcases hd with hd | hd | hd | hd <;> subst hd <;> rfl)
      | (rcases hd with hd | hd | hd <;> subst hd <;> rfl)
      | (rcases hd with hd | hd <;> subst hd <;> rfl)

/-- C5: with an empty `--service` value `runServiceMonitor` returns an error, none of
its calls reads a Service or applies a ServiceMonitor (every run of
`createFromService` starts with such a read, see `createFromService_calls_head`),
and once the logger and the client sets were obtained the error is
"service name is required". -/
theorem C5_runServiceMonitor_empty_service (h : Host) (kubeconfig ns port : String) :
    (runServiceMonitor h kubeconfig "" ns port).1 ≠ none ∧
    (∀ c ∈ (runServiceMonitor h kubeconfig "" ns port).2, c.touchesServiceMonitor = false) ∧
    (∀ clientSets, h.newLogger = .ok () → (GetClientSets h kubeconfig).1 = .ok clientSets →
      (runServiceMonitor h kubeconfig "" ns port).1 = some ⟨"service name is required"⟩) := by
  have hcs := GetClientSets_calls h kubeconfig
  refine ⟨?_, ?_, ?_⟩
  · unfold runServiceMonitor
    split
    · simp
    · split <;> simp
  · intro c hc
    unfold runServiceMonitor at hc
    split at hc
    · simp at hc
      rcases hc with hc | hc <;> subst hc <;> rfl
    · split at hc
      · rename_i err calls heq
        rw [heq] at hcs
        simp at hc
        rcases hc with hc | hc | hc
        · subst hc; rfl
        · exact hcs c hc
        · subst hc; rfl
      · rename_i clientSets calls heq
        rw [heq] at hcs
        simp at hc
        rcases hc with hc | hc | hc
        · subst hc; rfl
        · exact hcs c hc
        · subst hc; rfl
  · intro clientSets hlog hsets
    unfold runServiceMonitor
    rw [hlog]
    dsimp only
    split
    · rename_i err calls heq
      rw [heq] at hsets
      cases hsets
    · simp

/-- C5 on `devHost`, where the logger and the client sets are obtained. -/
theorem C5_runServiceMonitor_empty_service_witness :
    devHost.newLogger = .ok () ∧
    (∃ clientSets, (GetClientSets devHost "").1 = .ok clientSets) ∧
    (runServiceMonitor devHost "" "" "default" "").1 = some ⟨"service name is required"⟩ :=
  ⟨rfl, ⟨_, rfl⟩,
    (C5_runServiceMonitor_empty_service devHost "" "default" "").2.2 _ rfl rfl⟩

/-- C7: for a non-empty `kubeConfig` argument `GetRestConfig` makes one call, building
the client config from exactly that path, and consults neither the current user nor
the file system; for an empty argument the path that is stat-ed and built from is the
cleaned `<home>/.kube/config`; and when, for an empty argument, the current user
cannot be determined or that file cannot be stat-ed, the result is no config and the
error "error while getting kubeconfig: " followed by the cause, and no config is built. -/
theorem C7_GetRestConfig (h : Host) (kubeConfig : String) :
    (kubeConfig ≠ "" →
      (GetRestConfig h kubeConfig).2 = [.buildConfigFromFlags "" kubeConfig] ∧
      (∀ c ∈ (GetRestConfig h kubeConfig).2, c.consultsHome = false) ∧
      (∀ config, h.buildConfigFromFlags "" kubeConfig = .ok config →
        (GetRestConfig h kubeConfig).1 = .ok config)) ∧
    (kubeConfig = "" → ∀ usr, h.userCurrent = .ok usr →
      h.stat (h.filepathClean (usr.HomeDir ++ "/.kube/config")) = .ok () →
      (GetRestConfig h kubeConfig).2 =
        [.userCurrent, .stat (h.filepathClean (usr.HomeDir ++ "/.kube/config")),
          .buildConfigFromFlags "" (h.filepathClean (usr.HomeDir ++ "/.kube/config"))] ∧
      (∀ config,
        h.buildConfigFromFlags "" (h.filepathClean (usr.HomeDir ++ "/.kube/config")) =
          .ok config →
        (GetRestConfig h kubeConfig).1 = .ok config)) ∧
    (kubeConfig = "" → ∀ err,
      (h.userCurrent = .error err ∨
        ∃ usr, h.userCurrent = .ok usr ∧
          h.stat (h.filepathClean (usr.HomeDir ++ "/.kube/config")) = .error err) →
      (GetRestConfig h kubeConfig).1 =
        .error ⟨"error while getting kubeconfig: " ++ err.msg⟩ ∧
      ∀ c ∈ (GetRestConfig h kubeConfig).2, c.buildsConfig = false) := by
  refine ⟨?_, ?_, ?_⟩
  · intro hne
    have hrun : GetRestConfig h kubeConfig = buildRestConfig h kubeConfig := by
      unfold GetRestConfig
      rw [if_neg hne]
    refine ⟨?_, ?_, ?_⟩
    · rw [hrun, buildRestConfig_calls]
    · rw [hrun, buildRestConfig_calls]
      simp [Call.consultsHome]
    · intro config hbuild
      rw [hrun]
      simp [buildRestConfig, hbuild]
  · intro hempty usr husr hstat
    refine ⟨?_, ?_⟩
    · simp [GetRestConfig, hempty, getKubeConfig, husr, hstat, buildRestConfig_calls]
    · intro config hbuild
      simp [GetRestConfig, hempty, getKubeConfig, husr, hstat, buildRestConfig, hbuild]
  · intro hempty err hfail
    rcases hfail with husr | ⟨usr, husr, hstat⟩
    · simp [GetRestConfig, hempty, getKubeConfig, husr, Call.buildsConfig]
    · simp [GetRestConfig, hempty, getKubeConfig, husr, hstat, Call.buildsConfig]

/-- C7 on `noUserHost`, where the current user cannot be determined. -/
theorem C7_GetRestConfig_witness :
    noUserHost.userCurrent = .error ⟨"user: Current requires cgo or $USER set"⟩ ∧
    (GetRestConfig noUserHost "").1 =
      .error ⟨"error while getting kubeconfig: user: Current requires cgo or $USER set"⟩ ∧
    ∀ c ∈ (GetRestConfig noUserHost "").2, c.buildsConfig = false :=
  ⟨rfl, (C7_GetRestConfig noUserHost "").2.2 rfl _ (Or.inl rfl)⟩

/-! ## The RBAC analyzer -/

/-- The two error texts of a failed agent read differ, whatever the names. -/
theorem not_found_text_ne (name ns cause : String) :
    "error while getting Prometheus: " ++ cause ≠
      "prometheus " ++ name ++ " not found in namespace " ++ ns := by
  intro heq
  have hhead := congrArg (fun s : String => s.data.head?) heq
  simp [String.data_append] at hhead

/-- A failed read of the agent makes the analyzer return an error. -/
theorem RunPrometheusAgentAnalyzer_agent_error
    (isBound : List ClusterRoleBinding → String → Bool)
    (check : ClusterRoleBinding → ClusterRole → Option GoError)
    (cs : ClientSets) (name ns : String) (err : APIError)
    (hget : cs.MClient.getPrometheusAgent ns name = .error err) :
    (RunPrometheusAgentAnalyzer isBound check cs name ns).1 ≠ none := by
  unfold RunPrometheusAgentAnalyzer
  rw [hget]
  dsimp only
  split <;> simp

/-- C6: if the read of the PrometheusAgent fails, `RunPrometheusAgentAnalyzer` returns
an error and that read is its only call, so it lists no ClusterRoleBindings and
fetches no ClusterRole; the error text is
"prometheus <name> not found in namespace <namespace>" exactly when the failure is a
NotFound error, and otherwise it is "error while getting Prometheus: " followed by the
text of the failure. -/
theorem C6_agent_read_failure
    (isBound : List ClusterRoleBinding → String → Bool)
    (check : ClusterRoleBinding → ClusterRole → Option GoError)
    (cs : ClientSets) (name ns : String) (err : APIError)
    (hget : cs.MClient.getPrometheusAgent ns name = .error err) :
    (RunPrometheusAgentAnalyzer isBound check cs name ns).1 ≠ none ∧
    (RunPrometheusAgentAnalyzer isBound check cs name ns).2 = [.getPrometheusAgent ns name] ∧
    (∀ c ∈ (RunPrometheusAgentAnalyzer isBound check cs name ns).2, c.readsRBAC = false) ∧
    ((RunPrometheusAgentAnalyzer isBound check cs name ns).1 =
        some ⟨"prometheus " ++ name ++ " not found in namespace " ++ ns⟩ ↔
      IsNotFound err = true) ∧
    (IsNotFound err = false →
      (RunPrometheusAgentAnalyzer isBound check cs name ns).1 =
        some ⟨"error while getting Prometheus: " ++ err.msg⟩) := by
  cases hnf : IsNotFound err with
  | true =>
    simp [RunPrometheusAgentAnalyzer, hget, hnf, Call.readsRBAC]
  | false =>
    have hne := not_found_text_ne name ns err.msg
    simp [RunPrometheusAgentAnalyzer, hget, hnf, Call.readsRBAC, hne]

/-- C6 on `webClientSets`, whose monitoring API holds no agent. -/
theorem C6_agent_read_failure_witness :
    webClientSets.MClient.getPrometheusAgent "monitoring" "agent" =
      .error { msg := "prometheusagents \"agent\" not found", notFound := true } ∧
    (RunPrometheusAgentAnalyzer IsServiceAccountBoundToRoleBindingList requireRules
        webClientSets "agent" "monitoring").1 =
      some ⟨"prometheus agent not found in namespace monitoring"⟩ ∧
    (RunPrometheusAgentAnalyzer IsServiceAccountBoundToRoleBindingList requireRules
        webClientSets "agent" "monitoring").2 = [.getPrometheusAgent "monitoring" "agent"] :=
  have h := C6_agent_read_failure IsServiceAccountBoundToRoleBindingList requireRules
    webClientSets "agent" "monitoring" _ rfl
  ⟨rfl, h.2.2.2.1.mpr rfl, h.2.1⟩

/-- The loop body passes a binding exactly when its ClusterRole is fetched and
passes the rule check. -/
theorem checkBinding_eq_none (check : ClusterRoleBinding → ClusterRole → Option GoError)
    (k : KubeClient) (crb : ClusterRoleBinding) :
    checkBinding check k crb = none ↔
      ∃ cr, k.getClusterRole crb.RoleRef.Name = .ok cr ∧ check crb cr = none := by
  unfold checkBinding
  cases k.getClusterRole crb.RoleRef.Name with
  | error err => simp
  | ok cr => simp

/-- When every binding passes, the loop fetches one ClusterRole per binding, in list
order, and returns no error. -/
theorem checkBindings_all_pass (check : ClusterRoleBinding → ClusterRole → Option GoError)
    (k : KubeClient) (items : List ClusterRoleBinding)
    (hpass : ∀ crb ∈ items, checkBinding check k crb = none) :
    checkBindings check k items =
      (none, items.map (fun crb => Call.getClusterRole crb.RoleRef.Name)) := by
  induction items with
  | nil => rfl
  | cons crb rest ih =>
    have hhead : checkBinding check k crb = none := hpass crb (List.mem_cons_self _ _)
    have htail := ih (fun b hb => hpass b (List.mem_cons_of_mem _ hb))
    simp [checkBindings, hhead, htail]

/-- At the first binding that fails, the loop returns that binding's error, having
fetched the ClusterRoles of the bindings up to and including it and of none after. -/
theorem checkBindings_first_failure (check : ClusterRoleBinding → ClusterRole → Option GoError)
    (k : KubeClient) (pre post : List ClusterRoleBinding) (crb : ClusterRoleBinding)
    (hpass : ∀ b ∈ pre, checkBinding check k b = none)
    (hfail : checkBinding check k crb ≠ none) :
    checkBindings check k (pre ++ crb :: post) =
      (checkBinding check k crb,
        (pre ++ [crb]).map (fun b => Call.getClusterRole b.RoleRef.Name)) := by
  induction pre with
  | nil =>
    cases hres : checkBinding check k crb with
    | none => exact absurd hres hfail
    | some err => simp [checkBindings, hres]
  | cons b rest ih =>
    have hhead : checkBinding check k b = none := hpass b (List.mem_cons_self _ _)
    have htail := ih (fun c hc => hpass c (List.mem_cons_of_mem _ hc))
    simp [checkBindings, hhead, htail]

/-- The loop returns no error exactly when every binding passes. -/
theorem checkBindings_eq_none (check : ClusterRoleBinding → ClusterRole → Option GoError)
    (k : KubeClient) (items : List ClusterRoleBinding) :
    (checkBindings check k items).1 = none ↔
      ∀ crb ∈ items, checkBinding check k crb = none := by
  induction items with
  | nil => simp [checkBindings]
  | cons crb rest ih =>
    cases hres : checkBinding check k crb with
    | none => simp [checkBindings, hres, ih]
    | some err => simp [checkBindings, hres]

/-- The analyzer once the agent is read and the bindings are listed: the bound test,
then the loop. -/
theorem RunPrometheusAgentAnalyzer_listed
    (isBound : List ClusterRoleBinding → String → Bool)
    (check : ClusterRoleBinding → ClusterRole → Option GoError)
    (cs : ClientSets) (name ns : String) (agent : PrometheusAgent)
    (items : List ClusterRoleBinding)
    (hagent : cs.MClient.getPrometheusAgent ns name = .ok agent)
    (hlist : cs.KClient.listClusterRoleBindings "name=prometheus-agent" = .ok items)
    (hbound : isBound items agent.Spec.ServiceAccountName = true) :
    (RunPrometheusAgentAnalyzer isBound check cs name ns).1 =
        (checkBindings check cs.KClient items).1 ∧
    ((checkBindings check cs.KClient items).1 ≠ none →
      (RunPrometheusAgentAnalyzer isBound check cs name ns).2 =
        [.getPrometheusAgent ns name, .listClusterRoleBindings "name=prometheus-agent"] ++
          (checkBindings check cs.KClient items).2) ∧
    ((checkBindings check cs.KClient items).1 = none →
      (RunPrometheusAgentAnalyzer isBound check cs name ns).2 =
        [.getPrometheusAgent ns name, .listClusterRoleBindings "name=prometheus-agent"] ++
          (checkBindings check cs.KClient items).2 ++
          [.logInfo "Prometheus Agent is compliant, no issues found"
            [("name", name), ("namespace", ns)]]) := by
  unfold RunPrometheusAgentAnalyzer
  rw [hagent]
  dsimp only
  rw [hlist]
  dsimp only
  rw [if_neg (by simp [hbound])]
  cases hloop : checkBindings check cs.KClient items with
  | mk res calls =>
    cases res with
    | none => simp
    | some err => simp

/-- C4, as stated, fails: on `rbacClientSets` the agent exists, the list call succeeds,
the agent's service account is bound by the listed bindings, and the one ClusterRole
it is bound to exists and passes the rule check, yet the analyzer returns an error,
because the listed binding `strayBinding`, which does not name the service account,
refers to a ClusterRole that does not exist. -/
theorem C4_unbound_binding_fails_analyzer :
    rbacClientSets.MClient.getPrometheusAgent "monitoring" "agent" = .ok demoAgent ∧
    rbacClientSets.KClient.listClusterRoleBindings "name=prometheus-agent" =
      .ok [agentBinding, strayBinding] ∧
    ¬ ((RunPrometheusAgentAnalyzer IsServiceAccountBoundToRoleBindingList requireRules
          rbacClientSets "agent" "monitoring").1 = none ↔
        (IsServiceAccountBoundToRoleBindingList [agentBinding, strayBinding]
            demoAgent.Spec.ServiceAccountName = true ∧
          ∀ crb ∈ [agentBinding, strayBinding],
            bindsServiceAccount crb demoAgent.Spec.ServiceAccountName = true →
            ∃ cr, rbacClientSets.KClient.getClusterRole crb.RoleRef.Name = .ok cr ∧
              requireRules crb cr = none)) := by
  refine ⟨rfl, rfl, ?_⟩
  intro hiff
  have hrun : (RunPrometheusAgentAnalyzer IsServiceAccountBoundToRoleBindingList requireRules
      rbacClientSets "agent" "monitoring").1 = some ⟨"failed to get ClusterRole missing"⟩ := rfl
  have hrhs : IsServiceAccountBoundToRoleBindingList [agentBinding, strayBinding]
        demoAgent.Spec.ServiceAccountName = true ∧
      ∀ crb ∈ [agentBinding, strayBinding],
        bindsServiceAccount crb demoAgent.Spec.ServiceAccountName = true →
        ∃ cr, rbacClientSets.KClient.getClusterRole crb.RoleRef.Name = .ok cr ∧
          requireRules crb cr = none := by
    refine ⟨rfl, ?_⟩
    intro crb hcrb hb
    simp only [List.mem_cons, List.mem_singleton, List.not_mem_nil, or_false] at hcrb
    rcases hcrb with hcrb | hcrb
    · subst hcrb
      exact ⟨agentRole, rfl, rfl⟩
    · subst hcrb
      exact absurd hb (by decide)
  have hnone := hiff.mpr hrhs
  rw [hrun] at hnone
  cases hnone

/-- C4, amended: given that the agent exists and the ClusterRoleBinding list call
succeeds, the analyzer returns no error if and only if the agent's service account
passes `IsServiceAccountBoundToRoleBindingList` on the listed bindings and, for every
listed binding, the ClusterRole its roleRef names exists and passes
`CheckPrometheusClusterRoleRules`. -/
theorem C4_analyzer_compliant_iff
    (isBound : List ClusterRoleBinding → String → Bool)
    (check : ClusterRoleBinding → ClusterRole → Option GoError)
    (cs : ClientSets) (name ns : String) (agent : PrometheusAgent)
    (items : List ClusterRoleBinding)
    (hagent : cs.MClient.getPrometheusAgent ns name = .ok agent)
    (hlist : cs.KClient.listClusterRoleBindings "name=prometheus-agent" = .ok items) :
    (RunPrometheusAgentAnalyzer isBound check cs name ns).1 = none ↔
      (isBound items agent.Spec.ServiceAccountName = true ∧
        ∀ crb ∈ items, ∃ cr, cs.KClient.getClusterRole crb.RoleRef.Name = .ok cr ∧
          check crb cr = none) := by
  cases hbound : isBound items agent.Spec.ServiceAccountName with
  | false =>
    simp [RunPrometheusAgentAnalyzer, hagent, hlist, hbound]
  | true =>
    rw [(RunPrometheusAgentAnalyzer_listed isBound check cs name ns agent items
      hagent hlist hbound).1, checkBindings_eq_none]
    simp only [checkBinding_eq_none, true_and]

/-- C4, amended, on `compliantClientSets`: the service account is bound and the one
listed binding refers to a ClusterRole that exists and passes, so the analyzer returns
no error. -/
theorem C4_analyzer_compliant_iff_witness :
    compliantClientSets.MClient.getPrometheusAgent "monitoring" "agent" = .ok demoAgent ∧
    compliantClientSets.KClient.listClusterRoleBindings "name=prometheus-agent" =
      .ok [agentBinding] ∧
    (RunPrometheusAgentAnalyzer IsServiceAccountBoundToRoleBindingList requireRules
      compliantClientSets "agent" "monitoring").1 = none :=
  ⟨rfl, rfl,
    (C4_analyzer_compliant_iff IsServiceAccountBoundToRoleBindingList requireRules
      compliantClientSets "agent" "monitoring" demoAgent [agentBinding] rfl rfl).mpr
      ⟨rfl, by
        intro crb hcrb
        simp only [List.mem_singleton] at hcrb
        subst hcrb
        exact ⟨agentRole, rfl, rfl⟩⟩⟩

/-- C8, as stated, fails: on `otherClientSets` the agent is read, the list call returns
`agentBinding` and `strayBinding`, `agentBinding` passes and `strayBinding` is the first
binding that fails (its ClusterRole does not exist), yet the error returned is not that
binding's: the agent's service account `other` is bound by no listed binding, so the
analyzer returns the not-bound error before the loop, and no binding is processed. -/
theorem C8_unbound_account_skips_loop :
    otherClientSets.MClient.getPrometheusAgent "monitoring" "agent" = .ok otherAgent ∧
    otherClientSets.KClient.listClusterRoleBindings "name=prometheus-agent" =
      .ok [agentBinding, strayBinding] ∧
    (∃ cr, otherClientSets.KClient.getClusterRole agentBinding.RoleRef.Name = .ok cr ∧
      requireRules agentBinding cr = none) ∧
    checkBinding requireRules otherClientSets.KClient strayBinding =
      some ⟨"failed to get ClusterRole missing"⟩ ∧
    (RunPrometheusAgentAnalyzer IsServiceAccountBoundToRoleBindingList requireRules
        otherClientSets "agent" "monitoring").1 =
      some ⟨"serviceAccount other is not bound to any RoleBindings"⟩ ∧
    (RunPrometheusAgentAnalyzer IsServiceAccountBoundToRoleBindingList requireRules
        otherClientSets "agent" "monitoring").1 ≠
      checkBinding requireRules otherClientSets.KClient strayBinding ∧
    (RunPrometheusAgentAnalyzer IsServiceAccountBoundToRoleBindingList requireRules
        otherClientSets "agent" "monitoring").2 =
      [.getPrometheusAgent "monitoring" "agent",
        .listClusterRoleBindings "name=prometheus-agent"] := by
  refine ⟨rfl, rfl, ⟨agentRole, rfl, rfl⟩, rfl, rfl, ?_, rfl⟩
  decide

/-- C8, amended: whenever `RunPrometheusAgentAnalyzer` returns no error, the agent was
read, the bindings were listed with the label selector "name=prometheus-agent", and
for every listed binding, whatever its subjects, the ClusterRole its roleRef names was
fetched successfully and passed the rule check, the fetches being made one per
binding in list order; and when the agent's service account passes the bound test on
the listed bindings, so that the loop is reached, and a listed binding fails while
all bindings before it pass, the error returned is that binding's ("failed to get
ClusterRole <name>" when the fetch fails, the rule check's error otherwise), and the
ClusterRoles fetched are those of the bindings up to and including it and of no
later binding. -/
theorem C8_every_listed_binding_checked
    (isBound : List ClusterRoleBinding → String → Bool)
    (check : ClusterRoleBinding → ClusterRole → Option GoError)
    (cs : ClientSets) (name ns : String) :
    ((RunPrometheusAgentAnalyzer isBound check cs name ns).1 = none →
      ∃ agent items,
        cs.MClient.getPrometheusAgent ns name = .ok agent ∧
        cs.KClient.listClusterRoleBindings "name=prometheus-agent" = .ok items ∧
        (∀ crb ∈ items, ∃ cr, cs.KClient.getClusterRole crb.RoleRef.Name = .ok cr ∧
          check crb cr = none) ∧
        (RunPrometheusAgentAnalyzer isBound check cs name ns).2 =
          [.getPrometheusAgent ns name, .listClusterRoleBindings "name=prometheus-agent"] ++
            items.map (fun crb => Call.getClusterRole crb.RoleRef.Name) ++
            [.logInfo "Prometheus Agent is compliant, no issues found"
              [("name", name), ("namespace", ns)]]) ∧
    (∀ agent pre crb post,
      cs.MClient.getPrometheusAgent ns name = .ok agent →
      cs.KClient.listClusterRoleBindings "name=prometheus-agent" = .ok (pre ++ crb :: post) →
      isBound (pre ++ crb :: post) agent.Spec.ServiceAccountName = true →
      (∀ b ∈ pre, ∃ cr, cs.KClient.getClusterRole b.RoleRef.Name = .ok cr ∧
        check b cr = none) →
      (¬ ∃ cr, cs.KClient.getClusterRole crb.RoleRef.Name = .ok cr ∧ check crb cr = none) →
      (RunPrometheusAgentAnalyzer isBound check cs name ns).1 ≠ none ∧
      ((∀ cr, cs.KClient.getClusterRole crb.RoleRef.Name ≠ .ok cr) →
        (RunPrometheusAgentAnalyzer isBound check cs name ns).1 =
          some ⟨"failed to get ClusterRole " ++ crb.RoleRef.Name⟩) ∧
      (∀ cr, cs.KClient.getClusterRole crb.RoleRef.Name = .ok cr →
        (RunPrometheusAgentAnalyzer isBound check cs name ns).1 = check crb cr) ∧
      (RunPrometheusAgentAnalyzer isBound check cs name ns).2 =
        [.getPrometheusAgent ns name, .listClusterRoleBindings "name=prometheus-agent"] ++
          (pre ++ [crb]).map (fun b => Call.getClusterRole b.RoleRef.Name)) := by
  constructor
  · intro hnil
    cases hagent : cs.MClient.getPrometheusAgent ns name with
    | error err =>
      exact absurd hnil (RunPrometheusAgentAnalyzer_agent_error isBound check cs name ns err hagent)
    | ok agent =>
      cases hlist : cs.KClient.listClusterRoleBindings "name=prometheus-agent" with
      | error err => simp [RunPrometheusAgentAnalyzer, hagent, hlist] at hnil
      | ok items =>
        cases hbound : isBound items agent.Spec.ServiceAccountName with
        | false => simp [RunPrometheusAgentAnalyzer, hagent, hlist, hbound] at hnil
        | true =>
          have hrun := RunPrometheusAgentAnalyzer_listed isBound check cs name ns agent items
            hagent hlist hbound
          rw [hrun.1] at hnil
          have hall := (checkBindings_eq_none check cs.KClient items).mp hnil
          refine ⟨agent, items, rfl, rfl, ?_, ?_⟩
          · intro crb hcrb
            exact (checkBinding_eq_none check cs.KClient crb).mp (hall crb hcrb)
          · rw [hrun.2.2 hnil, checkBindings_all_pass check cs.KClient items hall]
  · intro agent pre crb post hagent hlist hbound hpre hfail
    have hrun := RunPrometheusAgentAnalyzer_listed isBound check cs name ns agent
      (pre ++ crb :: post) hagent hlist hbound
    have hpre2 : ∀ b ∈ pre, checkBinding check cs.KClient b = none :=
      fun b hb => (checkBinding_eq_none check cs.KClient b).mpr (hpre b hb)
    have hfail2 : checkBinding check cs.KClient crb ≠ none :=
      fun h => hfail ((checkBinding_eq_none check cs.KClient crb).mp h)
    have hloop := checkBindings_first_failure check cs.KClient pre post crb hpre2 hfail2
    have hres : (RunPrometheusAgentAnalyzer isBound check cs name ns).1 =
        checkBinding check cs.KClient crb := by
      rw [hrun.1, hloop]
    refine ⟨?_, ?_, ?_, ?_⟩
    · rw [hres]
      exact hfail2
    · intro hget
      rw [hres]
      unfold checkBinding
      cases hcr : cs.KClient.getClusterRole crb.RoleRef.Name with
      | error err => rfl
      | ok cr => exact absurd hcr (hget cr)
    · intro cr hcr
      rw [hres]
      unfold checkBinding
      rw [hcr]
    · have hne : (checkBindings check cs.KClient (pre ++ crb :: post)).1 ≠ none := by
        rw [hloop]
        exact hfail2
      rw [hrun.2.1 hne, hloop]

/-- C8 on `rbacClientSets`: `agentBinding` passes, `strayBinding` is the first binding
that fails, and the run ends with its error after fetching both ClusterRoles. -/
theorem C8_every_listed_binding_checked_witness :
    (RunPrometheusAgentAnalyzer IsServiceAccountBoundToRoleBindingList requireRules
        rbacClientSets "agent" "monitoring").1 =
      some ⟨"failed to get ClusterRole missing"⟩ ∧
    (RunPrometheusAgentAnalyzer IsServiceAccountBoundToRoleBindingList requireRules
        rbacClientSets "agent" "monitoring").2 =
      [.getPrometheusAgent "monitoring" "agent",
        .listClusterRoleBindings "name=prometheus-agent",
        .getClusterRole "prometheus-agent", .getClusterRole "missing"] :=
  have h := (C8_every_listed_binding_checked IsServiceAccountBoundToRoleBindingList
    requireRules rbacClientSets "agent" "monitoring").2 demoAgent [agentBinding] strayBinding []
    rfl rfl rfl
    (by
      intro b hb
      simp only [List.mem_singleton] at hb
      subst hb
      exact ⟨agentRole, rfl, rfl⟩)
    (by
      rintro ⟨cr, hcr, _⟩
      cases hcr)
  ⟨h.2.1 (by intro cr hcr; cases hcr), h.2.2.2⟩

end Poctl
